import Mathlib

/-!
Verification of the request-authentication gate of the `test_orcid_oauth`
repository.

The gate is the overridden `AuthenticateMiddleware.__call__` coroutine, which
appears (textually identically) in `src/app/main.py` (lines 60-111) and
`src/app/protected_app.py` (lines 39-91).  We embed it as a pure function from
a request scope to a gate result.  The token verifier (`self.claims`, provided
by the external `starlette_oauth2_api` library, not part of this repository)
is a parameter of the embedding: a function from an optional raw token to
either `(provider, claims)` or a list of verification error strings (the
`InvalidToken.errors` payload).
-/

namespace OrcidGate

/-- ASCII lowering of one character, as applied by header-name
normalisation. -/
def charLower (c : Char) : Char :=
  if c.isUpper then Char.ofNat (c.toNat + 32) else c

/-- Python `str.lower()` (ASCII fragment), over the character list. -/
def strLower (s : String) : String := String.mk (s.data.map charLower)

/-- Python `str.startswith(t)`, over the character lists. -/
def strStartsWith (s t : String) : Bool := s.data.take t.data.length == t.data

/-- Python slicing `s[n:]`, over the character list. -/
def strDrop (s : String) (n : Nat) : String := String.mk (s.data.drop n)

/-- Python `len(s)` in characters. -/
def strLen (s : String) : Nat := s.data.length

/-- Python-style dictionary lookup `d.get(key)`: the value attached to the
first matching key, or `none`. Used for `session.get("user")` and
`user.get("id_token", None)`. -/
def dictGet {α : Type} (d : List (String × α)) (key : String) : Option α :=
  (d.find? (fun kv => kv.fst == key)).map (fun kv => kv.snd)

/-- Starlette header lookup: case-insensitive on the header name.  Models both
`"authorization" in request.headers` (result is `some`) and
`request.headers["authorization"]` (the value). -/
def headerGet (headers : List (String × String)) (key : String) : Option String :=
  (headers.find? (fun kv => strLower kv.fst == strLower key)).map (fun kv => kv.snd)

/-- The claim mapping produced by a successful verification: claim name to
value (JWT payload fields). -/
abbrev Claims := List (String × String)

/-- The per-request ASGI scope as the gate sees it: the request path, the
headers, the session mapping (from which only the `user` entry, itself a
string mapping, is read), the three `oauth2-*` keys the gate may write, and
the rest of the scope, untouched by the gate.  `oauth2Jwt` is
`Option (Option String)`: the outer layer is key presence in the scope, the
inner is the Python value (which is `None` when a session user has no
`id_token`). -/
structure Scope where
  path : String
  headers : List (String × String)
  session : List (String × List (String × String))
  oauth2Claims : Option Claims
  oauth2Provider : Option String
  oauth2Jwt : Option (Option String)
  rest : List (String × String)
  deriving DecidableEq

/-- The body handed to `_prepare_error_response`: a single message string for
the two 400 rejections, the list `e.errors` for the 401 rejection. -/
inductive ErrorBody where
  | msg : String → ErrorBody
  | msgs : List String → ErrorBody
  deriving DecidableEq

/-- Outcome of one pass of the gate over a request: either the downstream app
`self._app` is invoked with the (possibly augmented) scope, or an error
response is produced with a status code and body and the downstream app is
never invoked.  Both constructors carry the scope as the gate leaves it. -/
inductive GateResult where
  | forward : Scope → GateResult
  | reject : Nat → ErrorBody → Scope → GateResult
  deriving DecidableEq

/-- The external token verifier `self.claims`: from the optional raw token to
`Except` of the `InvalidToken.errors` list or the `(provider, claims)` pair. -/
abbrev Verifier := Option String → Except (List String) (String × Claims)

/-- The tail of the gate after a token has been selected: `self.claims(token)`
inside `try`, on success the three scope assignments followed by
`self._app(...)`, on `InvalidToken` the 401 error response with `e.errors`. -/
def runVerify (verify : Verifier) (token : Option String) (scope : Scope) :
    GateResult :=
  match verify token with
  | Except.ok (provider, claims) =>
      GateResult.forward
        { scope with
            oauth2Claims := some claims
            oauth2Provider := some provider
            oauth2Jwt := some token }
  | Except.error es => GateResult.reject 401 (ErrorBody.msgs es) scope

/-- `AuthenticateMiddleware.__call__` (src/app/main.py lines 60-111,
src/app/protected_app.py lines 39-91): public-path short-circuit, then the
`if user is not None / elif bearer header / elif header / else` chain, then
the verify-and-attach tail. -/
def authenticateCall (publicPaths : List String) (verify : Verifier)
    (scope : Scope) : GateResult :=
  if scope.path ∈ publicPaths then
    GateResult.forward scope
  else
    match dictGet scope.session "user" with
    | some user => runVerify verify (dictGet user "id_token") scope
    | none =>
        match headerGet scope.headers "authorization" with
        | some auth =>
            if strStartsWith auth "Bearer " then
              runVerify verify (some (strDrop auth (strLen "Bearer "))) scope
            else
              GateResult.reject 400
                (ErrorBody.msg "The \"authorization\" header must start with \"Bearer \"")
                scope
        | none =>
            GateResult.reject 400
              (ErrorBody.msg "The request does not contain an \"authorization\" header")
              scope

/-- The credential actually submitted to the verifier on the paths of
`authenticateCall` that reach the verify step: `some token` when the gate
calls `self.claims(token)`, `none` when it rejects with 400 beforehand.
(Derived view of the same chain; not a separate code path.) -/
def credentialToken (scope : Scope) : Option (Option String) :=
  match dictGet scope.session "user" with
  | some user => some (dictGet user "id_token")
  | none =>
      match headerGet scope.headers "authorization" with
      | some auth =>
          if strStartsWith auth "Bearer " then
            some (some (strDrop auth (strLen "Bearer ")))
          else none
      | none => none

/-- The scope as the gate leaves it, in either outcome. -/
def GateResult.finalScope : GateResult → Scope
  | GateResult.forward s => s
  | GateResult.reject _ _ s => s

/-! Concrete instances used to witness the theorems below: the public-path
set of `src/app/main.py` line 137, a verifier that accepts exactly the raw
token `"tok123"`, and a handful of request scopes. -/

/-- Claims carried by the example verifier's accepted token. -/
def exClaims : Claims := [("sub", "0000-0001-2345-6789")]

/-- An example verifier: accepts exactly the raw token `"tok123"` as issued by
provider `"orcid"`, rejects everything else (including a missing token) with
one error string. -/
def exVerifier : Verifier := fun t =>
  match t with
  | some "tok123" => Except.ok ("orcid", exClaims)
  | _ => Except.error ["invalid token"]

/-- The public-path set configured in `src/app/main.py` line 137. -/
def exPublicPaths : List String := ["/", "/login", "/logout", "/auth"]

/-- A request to a protected path with a valid bearer header and no session. -/
def exScopeBearer : Scope :=
  { path := "/protected",
    headers := [("authorization", "Bearer tok123")],
    session := [],
    oauth2Claims := none, oauth2Provider := none, oauth2Jwt := none,
    rest := [("client", "127.0.0.1")] }

/-- A request with a session user holding an id_token, and a bearer header
carrying a different token. -/
def exScopeSession : Scope :=
  { path := "/protected",
    headers := [("authorization", "Bearer other")],
    session := [("user", [("id_token", "tok123"), ("name", "Test User")])],
    oauth2Claims := none, oauth2Provider := none, oauth2Jwt := none,
    rest := [] }

/-- A request with no session user and no authorization header. -/
def exScopeNoCred : Scope :=
  { path := "/protected",
    headers := [("accept", "text/html")],
    session := [],
    oauth2Claims := none, oauth2Provider := none, oauth2Jwt := none,
    rest := [] }

/-- A request with no session user and a non-Bearer authorization header
(stored with a capitalised name, exercising case-insensitive lookup). -/
def exScopeBasic : Scope :=
  { path := "/protected",
    headers := [("Authorization", "Basic dXNlcjpwdw==")],
    session := [],
    oauth2Claims := none, oauth2Provider := none, oauth2Jwt := none,
    rest := [] }

/-- A request with a bearer header whose token the example verifier rejects. -/
def exScopeBadTok : Scope :=
  { path := "/protected",
    headers := [("authorization", "Bearer bad")],
    session := [],
    oauth2Claims := none, oauth2Provider := none, oauth2Jwt := none,
    rest := [] }

/-- A request to the public path `"/"`. -/
def exScopePublic : Scope :=
  { path := "/",
    headers := [("authorization", "Bearer tok123")],
    session := [],
    oauth2Claims := none, oauth2Provider := none, oauth2Jwt := none,
    rest := [] }

/-- A request whose session has a user entry with no `id_token` key, plus a
valid bearer header (which the code ignores). -/
def exScopeEmptyUser : Scope :=
  { path := "/protected",
    headers := [("authorization", "Bearer tok123")],
    session := [("user", [("name", "Test User")])],
    oauth2Claims := none, oauth2Provider := none, oauth2Jwt := none,
    rest := [] }

/-- A request whose session user entry has an empty-string `id_token`, plus a
valid bearer header (which the code ignores). -/
def exScopeEmptyTok : Scope :=
  { path := "/protected",
    headers := [("authorization", "Bearer tok123")],
    session := [("user", [("id_token", "")])],
    oauth2Claims := none, oauth2Provider := none, oauth2Jwt := none,
    rest := [] }

/-! Helper lemmas shared by the claim theorems. -/

/-- On a non-public path with a session user entry, the gate is the verify
tail applied to the user's optional `id_token`. -/
theorem authenticateCall_session_user (pp : List String) (v : Verifier)
    (scope : Scope) (u : List (String × String))
    (hp : scope.path ∉ pp) (hu : dictGet scope.session "user" = some u) :
    authenticateCall pp v scope = runVerify v (dictGet u "id_token") scope := by
  simp [authenticateCall, hp, hu]

/-- On a non-public path, whenever the derived credential is `some tok` the
gate is the verify tail applied to `tok`. -/
theorem authenticateCall_of_credentialToken (pp : List String) (v : Verifier)
    (scope : Scope) (tok : Option String)
    (hp : scope.path ∉ pp) (h : credentialToken scope = some tok) :
    authenticateCall pp v scope = runVerify v tok scope := by
  unfold credentialToken at h
  cases hu : dictGet scope.session "user" with
  | some u =>
      rw [hu] at h
      simp only [Option.some.injEq] at h
      rw [authenticateCall_session_user pp v scope u hp hu, h]
  | none =>
      rw [hu] at h
      cases hh : headerGet scope.headers "authorization" with
      | some auth =>
          by_cases hb : strStartsWith auth "Bearer "
          · simp only [hh, hb, if_true, Option.some.injEq] at h
            subst h
            simp [authenticateCall, hp, hu, hh, hb]
          · simp [hh, hb] at h
      | none =>
          simp [hh] at h

/-- The verify tail either forwards with all three oauth2 keys set, or rejects
with status 401 and the verifier's error list. -/
theorem runVerify_cases (v : Verifier) (tok : Option String) (scope : Scope) :
    (∃ p c, v tok = Except.ok (p, c) ∧
      runVerify v tok scope = GateResult.forward
        { scope with oauth2Claims := some c, oauth2Provider := some p,
                     oauth2Jwt := some tok })
    ∨ (∃ es, v tok = Except.error es ∧
        runVerify v tok scope = GateResult.reject 401 (ErrorBody.msgs es) scope) := by
  cases hv : v tok with
  | ok pc =>
      obtain ⟨p, c⟩ := pc
      exact Or.inl ⟨p, c, rfl, by simp [runVerify, hv]⟩
  | error es =>
      exact Or.inr ⟨es, rfl, by simp [runVerify, hv]⟩

/-- The verify tail never changes the session stored in the scope. -/
theorem runVerify_finalScope_session (v : Verifier) (tok : Option String)
    (scope : Scope) :
    (runVerify v tok scope).finalScope.session = scope.session := by
  cases hv : v tok with
  | ok pc =>
      obtain ⟨p, c⟩ := pc
      simp [runVerify, hv, GateResult.finalScope]
  | error es =>
      simp [runVerify, hv, GateResult.finalScope]

/-! Claim theorems. -/

/-- Claim C3: for every request whose session contains `user.id_token = T`
(non-empty), the gate submits `T` to the token verifier — the whole outcome is
the verify tail applied to `some T` — even when an authorization header
carrying a different token is present (the scope, headers included, is
arbitrary). -/
theorem session_precedence (pp : List String) (v : Verifier) (scope : Scope)
    (u : List (String × String)) (T : String)
    (hp : scope.path ∉ pp)
    (hu : dictGet scope.session "user" = some u)
    (ht : dictGet u "id_token" = some T)
    (_hne : T ≠ "") :
    authenticateCall pp v scope = runVerify v (some T) scope := by
  rw [authenticateCall_session_user pp v scope u hp hu, ht]

/-- Witness for C3: a session user with id_token `"tok123"` together with a
header `Bearer other`; the gate verifies `"tok123"`, not `"other"`. -/
theorem session_precedence_witness :
    exScopeSession.path ∉ exPublicPaths ∧
    dictGet exScopeSession.session "user" =
      some [("id_token", "tok123"), ("name", "Test User")] ∧
    dictGet [("id_token", "tok123"), ("name", "Test User")] "id_token" =
      some "tok123" ∧
    "tok123" ≠ "" ∧
    headerGet exScopeSession.headers "authorization" = some "Bearer other" ∧
    authenticateCall exPublicPaths exVerifier exScopeSession =
      runVerify exVerifier (some "tok123") exScopeSession :=
  ⟨by decide, rfl, rfl, by decide, rfl,
    session_precedence exPublicPaths exVerifier exScopeSession
      [("id_token", "tok123"), ("name", "Test User")] "tok123"
      (by decide) rfl rfl (by decide)⟩

/-- Claim C4: for every request whose path is an exact member of the public
path set, the gate forwards the request with the scope completely unchanged —
no claims attached, no other augmentation — and the outcome is the same for
every verifier and independent of session and headers (all arbitrary here). -/
theorem public_path_pass (pp : List String) (v : Verifier) (scope : Scope)
    (h : scope.path ∈ pp) :
    authenticateCall pp v scope = GateResult.forward scope := by
  simp [authenticateCall, h]

/-- Witness for C4: a request to `"/"` with a bearer header is forwarded
untouched. -/
theorem public_path_pass_witness :
    exScopePublic.path ∈ exPublicPaths ∧
    authenticateCall exPublicPaths exVerifier exScopePublic =
      GateResult.forward exScopePublic :=
  ⟨by decide, public_path_pass exPublicPaths exVerifier exScopePublic (by decide)⟩

/-- Claim C5: for every non-public request with no session user entry and no
authorization header, the gate rejects with status 400 and the message saying
the request does not contain an authorization header, and never forwards. -/
theorem no_header_rejected (pp : List String) (v : Verifier) (scope : Scope)
    (hp : scope.path ∉ pp)
    (hu : dictGet scope.session "user" = none)
    (hh : headerGet scope.headers "authorization" = none) :
    authenticateCall pp v scope =
      GateResult.reject 400
        (ErrorBody.msg "The request does not contain an \"authorization\" header")
        scope := by
  simp [authenticateCall, hp, hu, hh]

/-- Witness for C5: a protected-path request with neither session user nor
authorization header gets the 400 no-header response. -/
theorem no_header_rejected_witness :
    exScopeNoCred.path ∉ exPublicPaths ∧
    dictGet exScopeNoCred.session "user" = none ∧
    headerGet exScopeNoCred.headers "authorization" = none ∧
    authenticateCall exPublicPaths exVerifier exScopeNoCred =
      GateResult.reject 400
        (ErrorBody.msg "The request does not contain an \"authorization\" header")
        exScopeNoCred :=
  ⟨by decide, rfl, rfl,
    no_header_rejected exPublicPaths exVerifier exScopeNoCred
      (by decide) rfl rfl⟩

/-- Claim C6: for every non-public request with no session user entry and an
authorization header that does not start with `"Bearer "`, the gate rejects
with status 400 and the message naming the required `"Bearer "` start, and
never forwards. -/
theorem malformed_header_rejected (pp : List String) (v : Verifier)
    (scope : Scope) (auth : String)
    (hp : scope.path ∉ pp)
    (hu : dictGet scope.session "user" = none)
    (hh : headerGet scope.headers "authorization" = some auth)
    (hb : strStartsWith auth "Bearer " = false) :
    authenticateCall pp v scope =
      GateResult.reject 400
        (ErrorBody.msg "The \"authorization\" header must start with \"Bearer \"")
        scope := by
  simp [authenticateCall, hp, hu, hh, hb]

/-- Witness for C6: a `Basic` authorization header (stored with a capitalised
header name) gets the 400 malformed-header response. -/
theorem malformed_header_rejected_witness :
    exScopeBasic.path ∉ exPublicPaths ∧
    dictGet exScopeBasic.session "user" = none ∧
    headerGet exScopeBasic.headers "authorization" = some "Basic dXNlcjpwdw==" ∧
    strStartsWith "Basic dXNlcjpwdw==" "Bearer " = false ∧
    authenticateCall exPublicPaths exVerifier exScopeBasic =
      GateResult.reject 400
        (ErrorBody.msg "The \"authorization\" header must start with \"Bearer \"")
        exScopeBasic :=
  ⟨by decide, rfl, rfl, by decide,
    malformed_header_rejected exPublicPaths exVerifier exScopeBasic
      "Basic dXNlcjpwdw==" (by decide) rfl rfl (by decide)⟩

/-- Claim C9: for every request, every verifier and every outcome, the session
stored in the final scope is exactly the session of the incoming scope: the
gate only reads the session and never writes to or deletes from it. -/
theorem session_never_written (pp : List String) (v : Verifier) (scope : Scope) :
    (authenticateCall pp v scope).finalScope.session = scope.session := by
  by_cases hpub : scope.path ∈ pp
  · simp [authenticateCall, hpub, GateResult.finalScope]
  · cases hu : dictGet scope.session "user" with
    | some u =>
        rw [authenticateCall_session_user pp v scope u hpub hu]
        exact runVerify_finalScope_session v (dictGet u "id_token") scope
    | none =>
        cases hh : headerGet scope.headers "authorization" with
        | some auth =>
            by_cases hb : strStartsWith auth "Bearer "
            · rw [authenticateCall_of_credentialToken pp v scope
                (some (strDrop auth (strLen "Bearer "))) hpub
                (by simp [credentialToken, hu, hh, hb])]
              exact runVerify_finalScope_session v _ scope
            · simp [authenticateCall, hpub, hu, hh, hb, GateResult.finalScope]
        | none =>
            simp [authenticateCall, hpub, hu, hh, GateResult.finalScope]

/-- Claim C1: for every request to a non-public path, after the gate runs
exactly one of the two holds: the request is forwarded with all three verified
oauth2 entries attached, or an error response with status 400 or 401 is
produced and the downstream app is never invoked. -/
theorem nonpublic_exactly_one (pp : List String) (v : Verifier) (scope : Scope)
    (hp : scope.path ∉ pp) :
    ((∃ s, authenticateCall pp v scope = GateResult.forward s ∧
        s.oauth2Claims ≠ none ∧ s.oauth2Provider ≠ none ∧ s.oauth2Jwt ≠ none)
      ∨ (∃ st b s, authenticateCall pp v scope = GateResult.reject st b s ∧
          (st = 400 ∨ st = 401)))
    ∧ ¬((∃ s, authenticateCall pp v scope = GateResult.forward s ∧
        s.oauth2Claims ≠ none ∧ s.oauth2Provider ≠ none ∧ s.oauth2Jwt ≠ none)
      ∧ (∃ st b s, authenticateCall pp v scope = GateResult.reject st b s ∧
          (st = 400 ∨ st = 401))) := by
  constructor
  · cases hu : dictGet scope.session "user" with
    | some u =>
        rw [authenticateCall_session_user pp v scope u hp hu]
        rcases runVerify_cases v (dictGet u "id_token") scope with
          ⟨p, c, _, he⟩ | ⟨es, _, he⟩
        · exact Or.inl ⟨_, he, by simp, by simp, by simp⟩
        · exact Or.inr ⟨401, ErrorBody.msgs es, scope, he, Or.inr rfl⟩
    | none =>
        cases hh : headerGet scope.headers "authorization" with
        | some auth =>
            by_cases hb : strStartsWith auth "Bearer "
            · rw [authenticateCall_of_credentialToken pp v scope
                (some (strDrop auth (strLen "Bearer "))) hp
                (by simp [credentialToken, hu, hh, hb])]
              rcases runVerify_cases v (some (strDrop auth (strLen "Bearer "))) scope with
                ⟨p, c, _, he⟩ | ⟨es, _, he⟩
              · exact Or.inl ⟨_, he, by simp, by simp, by simp⟩
              · exact Or.inr ⟨401, ErrorBody.msgs es, scope, he, Or.inr rfl⟩
            · exact Or.inr ⟨400,
                ErrorBody.msg "The \"authorization\" header must start with \"Bearer \"",
                scope, by simp [authenticateCall, hp, hu, hh, hb], Or.inl rfl⟩
        | none =>
            exact Or.inr ⟨400,
              ErrorBody.msg "The request does not contain an \"authorization\" header",
              scope, by simp [authenticateCall, hp, hu, hh], Or.inl rfl⟩
  · rintro ⟨⟨s, hs, -⟩, ⟨st, b, s', hr, -⟩⟩
    rw [hs] at hr
    exact GateResult.noConfusion hr

/-- Witness for C1: the bearer-token request is decided, with the forward
branch holding. -/
theorem nonpublic_exactly_one_witness :
    exScopeBearer.path ∉ exPublicPaths ∧
    (((∃ s, authenticateCall exPublicPaths exVerifier exScopeBearer =
          GateResult.forward s ∧
        s.oauth2Claims ≠ none ∧ s.oauth2Provider ≠ none ∧ s.oauth2Jwt ≠ none)
      ∨ (∃ st b s, authenticateCall exPublicPaths exVerifier exScopeBearer =
          GateResult.reject st b s ∧ (st = 400 ∨ st = 401)))
    ∧ ¬((∃ s, authenticateCall exPublicPaths exVerifier exScopeBearer =
          GateResult.forward s ∧
        s.oauth2Claims ≠ none ∧ s.oauth2Provider ≠ none ∧ s.oauth2Jwt ≠ none)
      ∧ (∃ st b s, authenticateCall exPublicPaths exVerifier exScopeBearer =
          GateResult.reject st b s ∧ (st = 400 ∨ st = 401)))) :=
  ⟨by decide,
    nonpublic_exactly_one exPublicPaths exVerifier exScopeBearer (by decide)⟩

/-- Claim C7: for every request that reaches the verify step (a credential was
selected) and whose verification fails, the gate rejects with status 401 and
the verifier's list of error strings, and the downstream app is never
invoked. -/
theorem verify_failure_rejected (pp : List String) (v : Verifier)
    (scope : Scope) (tok : Option String) (es : List String)
    (hp : scope.path ∉ pp)
    (hc : credentialToken scope = some tok)
    (hv : v tok = Except.error es) :
    authenticateCall pp v scope =
      GateResult.reject 401 (ErrorBody.msgs es) scope := by
  rw [authenticateCall_of_credentialToken pp v scope tok hp hc]
  simp [runVerify, hv]

/-- Witness for C7: a bearer token the verifier rejects produces the 401
response carrying the verifier's error list. -/
theorem verify_failure_rejected_witness :
    exScopeBadTok.path ∉ exPublicPaths ∧
    credentialToken exScopeBadTok = some (some "bad") ∧
    exVerifier (some "bad") = Except.error ["invalid token"] ∧
    authenticateCall exPublicPaths exVerifier exScopeBadTok =
      GateResult.reject 401 (ErrorBody.msgs ["invalid token"]) exScopeBadTok :=
  ⟨by decide, by decide, rfl,
    verify_failure_rejected exPublicPaths exVerifier exScopeBadTok (some "bad")
      ["invalid token"] (by decide) (by decide) rfl⟩

/-- Claim C8: for every request that reaches the verify step and whose
verification succeeds with `(provider, claims)`, the gate forwards the request
with exactly the three oauth2 entries set to the claims, the provider and the
raw token submitted to the verifier, every other part of the scope (path,
headers, session, rest) left unchanged. -/
theorem verify_success_attaches (pp : List String) (v : Verifier)
    (scope : Scope) (tok : Option String) (p : String) (c : Claims)
    (hp : scope.path ∉ pp)
    (hc : credentialToken scope = some tok)
    (hv : v tok = Except.ok (p, c)) :
    authenticateCall pp v scope =
      GateResult.forward
        { scope with oauth2Claims := some c, oauth2Provider := some p,
                     oauth2Jwt := some tok } := by
  rw [authenticateCall_of_credentialToken pp v scope tok hp hc]
  simp [runVerify, hv]

/-- Witness for C8: the accepted bearer token leads to a forward whose scope
is the input scope plus exactly the three oauth2 entries. -/
theorem verify_success_attaches_witness :
    exScopeBearer.path ∉ exPublicPaths ∧
    credentialToken exScopeBearer = some (some "tok123") ∧
    exVerifier (some "tok123") = Except.ok ("orcid", exClaims) ∧
    authenticateCall exPublicPaths exVerifier exScopeBearer =
      GateResult.forward
        { exScopeBearer with oauth2Claims := some exClaims,
                             oauth2Provider := some "orcid",
                             oauth2Jwt := some (some "tok123") } :=
  ⟨by decide, by decide, rfl,
    verify_success_attaches exPublicPaths exVerifier exScopeBearer
      (some "tok123") "orcid" exClaims (by decide) (by decide) rfl⟩

/-- Claim C10: for every non-public request whose session has a user entry,
the gate never inspects the authorization header (the outcome has the same
shape for every headers value), passes the user entry's optional `id_token`
to the verifier, can only reject with status 401 (never 400), and when the
`id_token` entry is missing and the verifier fails on the missing token the
result is that 401 rejection. -/
theorem session_user_skips_header (pp : List String) (v : Verifier)
    (scope : Scope) (u : List (String × String))
    (hp : scope.path ∉ pp)
    (hu : dictGet scope.session "user" = some u) :
    authenticateCall pp v scope = runVerify v (dictGet u "id_token") scope
    ∧ (∀ hs, authenticateCall pp v { scope with headers := hs } =
        runVerify v (dictGet u "id_token") { scope with headers := hs })
    ∧ (∀ st b s, authenticateCall pp v scope = GateResult.reject st b s →
        st = 401)
    ∧ (∀ es, dictGet u "id_token" = none → v none = Except.error es →
        authenticateCall pp v scope =
          GateResult.reject 401 (ErrorBody.msgs es) scope) := by
  have h1 := authenticateCall_session_user pp v scope u hp hu
  refine ⟨h1, ?_, ?_, ?_⟩
  · intro hs
    exact authenticateCall_session_user pp v { scope with headers := hs } u hp hu
  · intro st b s hr
    rw [h1] at hr
    cases hv : v (dictGet u "id_token") with
    | ok pc =>
        obtain ⟨p, c⟩ := pc
        simp [runVerify, hv] at hr
    | error es =>
        simp only [runVerify, hv] at hr
        exact (GateResult.reject.inj hr).1.symm
  · intro es ht hv
    rw [h1, ht]
    simp [runVerify, hv]

/-- Witness for C10: a session user entry without `id_token` and a valid
bearer header; the gate verifies the missing token and rejects 401. -/
theorem session_user_skips_header_witness :
    exScopeEmptyUser.path ∉ exPublicPaths ∧
    dictGet exScopeEmptyUser.session "user" = some [("name", "Test User")] ∧
    (authenticateCall exPublicPaths exVerifier exScopeEmptyUser =
        runVerify exVerifier (dictGet [("name", "Test User")] "id_token")
          exScopeEmptyUser
      ∧ (∀ hs, authenticateCall exPublicPaths exVerifier
            { exScopeEmptyUser with headers := hs } =
          runVerify exVerifier (dictGet [("name", "Test User")] "id_token")
            { exScopeEmptyUser with headers := hs })
      ∧ (∀ st b s, authenticateCall exPublicPaths exVerifier exScopeEmptyUser =
            GateResult.reject st b s → st = 401)
      ∧ (∀ es, dictGet [("name", "Test User")] "id_token" = none →
          exVerifier none = Except.error es →
          authenticateCall exPublicPaths exVerifier exScopeEmptyUser =
            GateResult.reject 401 (ErrorBody.msgs es) exScopeEmptyUser)) :=
  ⟨by decide, rfl,
    session_user_skips_header exPublicPaths exVerifier exScopeEmptyUser
      [("name", "Test User")] (by decide) rfl⟩

/-- Counterexample to claim C2 as stated: a request whose session user entry
has no `id_token`, together with a `Bearer` header carrying a token the
verifier accepts.  The claim predicts the gate falls through to the header
rules and forwards with the bearer token; the code instead submits the missing
session token to the verifier and rejects with 401. -/
theorem session_without_token_counterexample :
    dictGet exScopeEmptyUser.session "user" = some [("name", "Test User")] ∧
    dictGet [("name", "Test User")] "id_token" = none ∧
    headerGet exScopeEmptyUser.headers "authorization" = some "Bearer tok123" ∧
    strStartsWith "Bearer tok123" "Bearer " = true ∧
    exVerifier (some (strDrop "Bearer tok123" (strLen "Bearer "))) =
      Except.ok ("orcid", exClaims) ∧
    runVerify exVerifier (some (strDrop "Bearer tok123" (strLen "Bearer ")))
        exScopeEmptyUser =
      GateResult.forward
        { exScopeEmptyUser with oauth2Claims := some exClaims,
                                oauth2Provider := some "orcid",
                                oauth2Jwt := some (some "tok123") } ∧
    authenticateCall exPublicPaths exVerifier exScopeEmptyUser =
      GateResult.reject 401 (ErrorBody.msgs ["invalid token"]) exScopeEmptyUser :=
  ⟨rfl, rfl, rfl, by decide, rfl, by decide, by decide⟩

/-- Claim C2 amended: a session user entry whose `id_token` is absent or empty
still preempts the header rules — the gate submits the entry's optional
`id_token` value (`none` or `""`) to the verifier and never falls through to
the authorization-header handling. -/
theorem session_without_token_no_fallback (pp : List String) (v : Verifier)
    (scope : Scope) (u : List (String × String))
    (hp : scope.path ∉ pp)
    (hu : dictGet scope.session "user" = some u)
    (_ht : dictGet u "id_token" = none ∨ dictGet u "id_token" = some "") :
    authenticateCall pp v scope = runVerify v (dictGet u "id_token") scope :=
  authenticateCall_session_user pp v scope u hp hu

/-- Witness for the amended C2: a session user entry with an empty-string
id_token; the gate verifies `""`, ignoring the valid bearer header. -/
theorem session_without_token_no_fallback_witness :
    exScopeEmptyTok.path ∉ exPublicPaths ∧
    dictGet exScopeEmptyTok.session "user" = some [("id_token", "")] ∧
    (dictGet [("id_token", "")] "id_token" = none ∨
      dictGet [("id_token", "")] "id_token" = some "") ∧
    authenticateCall exPublicPaths exVerifier exScopeEmptyTok =
      runVerify exVerifier (dictGet [("id_token", "")] "id_token")
        exScopeEmptyTok :=
  ⟨by decide, rfl, Or.inr rfl,
    session_without_token_no_fallback exPublicPaths exVerifier exScopeEmptyTok
      [("id_token", "")] (by decide) rfl (Or.inr rfl)⟩

end OrcidGate
